import Mathlib

/-!
Verification of the incremental ingestion pipeline of CryptoScopeBackend
(`backend/filter3_download_missing.py`, with the watermark-producing portion
of `backend/filter2_check_existing_data.py` at its interface).

Modelling conventions:
* Calendar dates are embedded as `Int` epoch-day numbers (days since
  1970-01-01).  `daysFromCivil`/`civilFromDays` convert between a Gregorian
  triple `(year, month, day)` and the day number; Python `date` ordering and
  `timedelta(days = n)` correspond to `Int` ordering and `+ n`.
* Python functions that consult ambient state (`date.today()`) take that
  state as an explicit parameter.
* JSON values decoded by `resp.json()` are embedded as the inductive `JVal`;
  Python runtime exceptions (`KeyError`, `TypeError`, `ValueError`,
  `AttributeError`) are embedded as `Except PyErr`.  A function of the
  source that may raise is embedded with result type `Except PyErr α`; an
  `.error` value means the Python call raises past its boundary.
* The network layer is embedded as an `HttpResponse` parameter: either the
  transport/decode step raises (`.failure`, covering timeouts, connection
  errors and non-JSON bodies) or it yields a decoded body (`.success body`).
  Each fetch result records in `networkCalled` whether the HTTP request was
  issued before the function returned.
-/

namespace CryptoScope

/-! ## Calendar dates as epoch-day numbers -/

/-- Gregorian triple `(y, m, d)` to days since 1970-01-01 (Gregorian civil
calendar, proleptic).  `Int` division here is floor division (the divisors
are positive), which matches the standard civil-from-days derivation. -/
def daysFromCivil (y m d : Int) : Int :=
  let y2 := if m ≤ 2 then y - 1 else y
  let era := y2 / 400
  let yoe := y2 - era * 400
  let mp := if 2 < m then m - 3 else m + 9
  let doy := (153 * mp + 2) / 5 + d - 1
  let doe := yoe * 365 + yoe / 4 - yoe / 100 + doy
  era * 146097 + doe - 719468

/-- Days since 1970-01-01 back to a Gregorian triple `(y, m, d)`. -/
def civilFromDays (z0 : Int) : Int × Int × Int :=
  let z := z0 + 719468
  let era := z / 146097
  let doe := z - era * 146097
  let yoe := (doe - doe / 1460 + doe / 36524 - doe / 146096) / 365
  let y := yoe + era * 400
  let doy := doe - (365 * yoe + yoe / 4 - yoe / 100)
  let mp := (5 * doy + 2) / 153
  let d := doy - (153 * mp + 2) / 5 + 1
  let m := if mp < 10 then mp + 3 else mp - 9
  (if m ≤ 2 then y + 1 else y, m, d)

/-- Shorthand used in concrete statements: the epoch-day number of a date. -/
def mkDate (y m d : Int) : Int := daysFromCivil y m d

def isLeapYear (y : Int) : Bool :=
  (y % 4 == 0 && y % 100 != 0) || y % 400 == 0

def daysInMonth (y m : Int) : Int :=
  if m = 2 then (if isLeapYear y then 29 else 28)
  else if m = 4 ∨ m = 6 ∨ m = 9 ∨ m = 11 then 30
  else 31

/-- Left-pad the decimal representation of a nonnegative integer with zeros. -/
def padInt (width : Nat) (n : Int) : String :=
  let s := toString n.toNat
  let l := s.length
  if l < width then String.mk (List.replicate (width - l) '0') ++ s else s

/-- ISO `YYYY-MM-DD` rendering of an epoch-day number, as produced by
Python `date.isoformat()` (years in this pipeline are positive). -/
def isoOfDays (z : Int) : String :=
  match civilFromDays z with
  | (y, m, d) => padInt 4 y ++ "-" ++ padInt 2 m ++ "-" ++ padInt 2 d

example : mkDate 1970 1 1 = 0 := by decide
example : mkDate 2024 6 1 = 19875 := by decide
example : mkDate 2014 6 4 = 16225 := by decide
example : isoOfDays 19875 = "2024-06-01" := by decide

/-! ## Watermark normalization (`_normalize_last_date`) -/

/-- A raw `last_date` cell handed to a fetch task.  Filter 2 writes either a
date string or `pd.NA` into the `last_date` column of `download_plan.csv`,
so after `pd.read_csv` a cell is either a missing value (`pd.isna` true) or
a string. -/
inductive RawVal where
  | nan
  | str (s : String)
deriving DecidableEq

/-- Whitespace characters removed by Python `str.strip()` (ASCII range). -/
def isPySpace (c : Char) : Bool :=
  c = ' ' || c = '\t' || c = '\n' || c = '\r' || c = Char.ofNat 11 || c = Char.ofNat 12

/-- Structural re-implementation of `str.strip()` (kernel-reducible, unlike
the iterator-based library version). -/
def pyStrip (s : String) : String :=
  String.mk (((s.data.dropWhile isPySpace).reverse.dropWhile isPySpace).reverse)

def lowerChar (c : Char) : Char :=
  if 'A' ≤ c ∧ c ≤ 'Z' then Char.ofNat (c.toNat + 32) else c

/-- Structural re-implementation of ASCII `str.lower()`. -/
def pyLower (s : String) : String :=
  String.mk (s.data.map lowerChar)

/-- Split a character list at every occurrence of `sep` (semantics of
Python `"s".split(sep)` for a one-character separator, structural). -/
def splitCharList (sep : Char) : List Char → List (List Char)
  | [] => [[]]
  | c :: rest =>
    let r := splitCharList sep rest
    if c = sep then [] :: r
    else
      match r with
      | [] => [[c]]
      | seg :: segs => (c :: seg) :: segs

def splitDash (s : String) : List String :=
  (splitCharList '-' s.data).map String.mk

/-- Decimal digit-string to `Nat`; `none` on the empty string or any
non-digit character (semantics of `String.toNat?`, structural). -/
def digitsToNat? (s : String) : Option Nat :=
  if s.data = [] then none
  else
    s.data.foldl
      (fun acc c =>
        match acc with
        | none => none
        | some n => if c.isDigit then some (n * 10 + (c.toNat - 48)) else none)
      (some 0)

/-- A valid Gregorian calendar triple. -/
def validYmd (y m d : Int) : Bool :=
  1 ≤ m && m ≤ 12 && 1 ≤ d && d ≤ daysInMonth y m

/-- Date-string parsing: accepts `YYYY-MM-DD` with a valid Gregorian
month/day and returns the triple.  This models `pd.to_datetime` restricted
to the ISO format that Filter 2 emits (the store's `date` column holds ISO
strings); any other string is modelled as a parse failure, as is every
string the real parser rejects (the caller catches the raised error). -/
def isoParse (s : String) : Option (Int × Int × Int) :=
  match splitDash s with
  | [ys, ms, ds] =>
    match digitsToNat? ys, digitsToNat? ms, digitsToNat? ds with
    | some y, some m, some d =>
      if ys.length = 4 ∧ validYmd (y : Int) (m : Int) (d : Int) = true
      then some ((y : Int), (m : Int), (d : Int))
      else none
    | _, _, _ => none
  | _ => none

/-- The `pd.to_datetime(s).date()` step of `_normalize_last_date`: a parse
failure is reported as `none` (the source catches the exception). -/
def pdToDatetimeDate (s : String) : Option Int :=
  match isoParse s with
  | some (y, m, d) => some (daysFromCivil y m d)
  | none => none

/-- Embeds `_normalize_last_date` (filter3, lines 88-99): `pd.isna` values
map to `None`; otherwise the string is stripped, the empty string and any
case variant of `"none"` map to `None`, and a parse failure is caught and
mapped to `None`. -/
def _normalize_last_date (raw : RawVal) : Option Int :=
  match raw with
  | .nan => none
  | .str s0 =>
    let s := pyStrip s0
    if s = "" then none
    else if pyLower s = "none" then none
    else pdToDatetimeDate s

/-! ## Window planning (`_compute_start_date`) -/

/-- Embeds `_compute_start_date` (filter3, lines 102-114).  The source reads
`date.today()`; the embedding takes `today` as a parameter.  Note the final
clamp: a computed start at or beyond `today` is replaced by `today` itself
(not by a degenerate marker). -/
def _compute_start_date (last_date : Option Int) (years_back : Int) (today : Int) : Int :=
  let n_years_ago := today - 365 * years_back
  let start :=
    match last_date with
    | none => n_years_ago
    | some ld => max (ld + 1) n_years_ago
  if today ≤ start then today else start

example : _normalize_last_date (.str "2024-05-30") = some (mkDate 2024 5 30) := by decide
example : _compute_start_date (some (mkDate 2024 5 30)) 10 (mkDate 2024 6 1) = mkDate 2024 5 31 := by
  decide
example : _compute_start_date none 10 (mkDate 2024 6 1) = mkDate 2014 6 4 := by decide
example : _compute_start_date (some (mkDate 2024 6 1)) 10 (mkDate 2024 6 1) = mkDate 2024 6 1 := by
  decide

/-! ## JSON values and Python runtime behaviour -/

/-- A decoded JSON value, as produced by `resp.json()`.  Numbers are
embedded as rationals (every JSON numeric literal is a finite decimal). -/
inductive JVal where
  | null
  | num (q : Rat)
  | str (s : String)
  | bool (b : Bool)
  | arr (xs : List JVal)
  | obj (kvs : List (String × JVal))

/-- Python identity test `x is None`. -/
def JVal.isNull : JVal → Bool
  | .null => true
  | _ => false

/-- The Python runtime errors relevant to the fetch path. -/
inductive PyErr where
  | keyError
  | indexError
  | typeError
  | valueError
  | attributeError
deriving DecidableEq

/-- Python subscription `j[k]` with a string key: only mappings succeed. -/
def jGetKey (j : JVal) : String → Except PyErr JVal :=
  fun k =>
    match j with
    | .obj kvs =>
      match kvs.lookup k with
      | some v => .ok v
      | none => .error .keyError
    | .arr _ => .error .typeError
    | .str _ => .error .typeError
    | _ => .error .typeError

/-- Python subscription `j[i]` with an integer index (only the `[0]` uses in
the source; negative indices are not needed). -/
def jGetIdx (j : JVal) : Nat → Except PyErr JVal :=
  fun i =>
    match j with
    | .arr xs =>
      match xs.get? i with
      | some v => .ok v
      | none => .error .indexError
    | .obj _ => .error .keyError
    | _ => .error .typeError

/-- Python `j.get(k, dflt)`: defined only on mappings, `AttributeError`
otherwise. -/
def jGetDefault (j : JVal) (k : String) (dflt : JVal) : Except PyErr JVal :=
  match j with
  | .obj kvs =>
    match kvs.lookup k with
    | some v => .ok v
    | none => .ok dflt
  | _ => .error .attributeError

/-- Python truthiness of a decoded JSON value. -/
def jTruthy (j : JVal) : Bool :=
  match j with
  | .null => false
  | .num q => !(q == 0)
  | .str s => !(s == "")
  | .bool b => b
  | .arr xs => !xs.isEmpty
  | .obj kvs => !kvs.isEmpty

/-- The `x or []` idiom of the source (filter3, lines 148-152). -/
def pyOrEmptyList (j : JVal) : JVal :=
  if jTruthy j then j else .arr []

/-- Python iteration over a decoded JSON value, as consumed by `zip`:
lists yield their elements, strings their characters, mappings their keys;
everything else raises `TypeError`. -/
def jIter (j : JVal) : Except PyErr (List JVal) :=
  match j with
  | .arr xs => .ok xs
  | .str s => .ok (s.data.map fun c => .str (String.mk [c]))
  | .obj kvs => .ok (kvs.map fun kv => .str kv.1)
  | _ => .error .typeError

/-- Unsigned decimal literal (`"12"`, `"12.5"`, `"12."`, `".5"`) to a
rational. -/
def parseUnsignedFloat (s : String) : Option Rat :=
  match (splitCharList '.' s.data).map String.mk with
  | [a] => (digitsToNat? a).map fun n => (n : Rat)
  | [a, b] =>
    if a = "" ∧ b = "" then none
    else
      let ip : Option Nat := if a = "" then some 0 else digitsToNat? a
      let fp : Option Nat := if b = "" then some 0 else digitsToNat? b
      match ip, fp with
      | some i, some f => some (mkRat ((i * 10 ^ b.length + f : Nat) : Int) (10 ^ b.length))
      | _, _ => none
  | _ => none

/-- Python `float(s)` on a string: stripped, optionally signed decimal
literal.  (The real parser also accepts exponents, underscores and
infinity/NaN literals; no value in this development uses those forms, and
the strings the claims exercise are rejected by both.) -/
def pyFloatOfString (s : String) : Option Rat :=
  let t := pyStrip s
  match t.data with
  | '+' :: rest => parseUnsignedFloat (String.mk rest)
  | '-' :: rest => (parseUnsignedFloat (String.mk rest)).map Neg.neg
  | _ => parseUnsignedFloat t

/-- Python `float(x)` on a decoded JSON value: numbers pass through, bools
coerce, parseable strings parse (`ValueError` otherwise), and every other
value raises `TypeError`. -/
def pyFloat (j : JVal) : Except PyErr Rat :=
  match j with
  | .num q => .ok q
  | .bool b => .ok (if b then 1 else 0)
  | .str s =>
    match pyFloatOfString s with
    | some q => .ok q
    | none => .error .valueError
  | _ => .error .typeError

/-- The UTC day containing epoch-second `q`, that is `⌊q / 86400⌋`
(`q.num`/`q.den` are in lowest terms with positive denominator, so the
floor is one floor division). -/
def epochDayOfSeconds (q : Rat) : Int := q.num.fdiv ((q.den : Int) * 86400)

/-- Python `datetime.utcfromtimestamp(t).date().isoformat()`: seconds since
epoch to the ISO string of the containing UTC day.  Numbers (and bools,
being Python ints) succeed; any other value raises `TypeError`.  (The range
check of the real call cannot fail on values this pipeline constructs.) -/
def pyUtcDateStr (t : JVal) : Except PyErr String :=
  match t with
  | .num q => .ok (isoOfDays (epochDayOfSeconds q))
  | .bool b => .ok (isoOfDays (epochDayOfSeconds (if b then 1 else 0)))
  | _ => .error .typeError

/-! ## Range Fetcher (`yahoo_fetch_range_rows`) -/

/-- A stored price row `(symbol, date, open, high, low, close, volume)`;
`open_` stands for the source's `open` column (a Lean keyword). -/
structure Row where
  symbol : String
  date : String
  open_ : Rat
  high : Rat
  low : Rat
  close : Rat
  volume : Rat
deriving DecidableEq

/-- One iteration of the row loop (filter3, lines 155-169): a record whose
open/high/low/close has a `None` among them is skipped (`continue`); an
emitted record converts the timestamp to a UTC date string and the fields
to floats, with a missing volume degrading to `0.0`.  The conversions are
outside any `try`, so their errors propagate. -/
def process_record (symbol : String) (t o h l c v : JVal) : Except PyErr (Option Row) :=
  if o.isNull || h.isNull || l.isNull || c.isNull then .ok none
  else do
    let dt_str ← pyUtcDateStr t
    let oq ← pyFloat o
    let hq ← pyFloat h
    let lq ← pyFloat l
    let cq ← pyFloat c
    let vq ← if v.isNull then pure 0 else pyFloat v
    pure (some ⟨symbol, dt_str, oq, hq, lq, cq, vq⟩)

/-- Python zip over the six parallel arrays: truncates at the shortest. -/
def zip6 : List JVal → List JVal → List JVal → List JVal → List JVal → List JVal →
    List (JVal × JVal × JVal × JVal × JVal × JVal)
  | t :: ts, o :: os, h :: hs, l :: ls, c :: cs, v :: vs =>
    (t, o, h, l, c, v) :: zip6 ts os hs ls cs vs
  | _, _, _, _, _, _ => []

/-- The `for` loop of lines 155-169 over the zipped records, accumulating
emitted rows in order; the first raised error aborts the whole call. -/
def process_records (symbol : String) :
    List (JVal × JVal × JVal × JVal × JVal × JVal) → Except PyErr (List Row)
  | [] => .ok []
  | (t, o, h, l, c, v) :: rest => do
    let r? ← process_record symbol t o h l c v
    let rs ← process_records symbol rest
    match r? with
    | some r => pure (r :: rs)
    | none => pure rs

/-- The guarded extraction block (filter3, lines 141-146): locate
`data["chart"]["result"][0]`, its `timestamp` array (defaulting to `[]`)
and `["indicators"]["quote"][0]`.  Any error here is caught by the source
and turned into an empty result. -/
def extract_chart (data : JVal) : Except PyErr (JVal × JVal) := do
  let chart ← jGetKey data "chart"
  let result ← jGetKey chart "result"
  let r0 ← jGetIdx result 0
  let timestamps ← jGetDefault r0 "timestamp" (.arr [])
  let indicators ← jGetKey r0 "indicators"
  let quoteArr ← jGetKey indicators "quote"
  let quote ← jGetIdx quoteArr 0
  pure (timestamps, quote)

/-- The unguarded array-preparation and row loop (filter3, lines 148-171):
`quote.get(..., []) or []` for the five fields, then `zip` (which checks
iterability of its six arguments) and the record loop.  None of this is
inside a `try`, so every error raises past the function boundary. -/
def build_rows (symbol : String) (timestamps quote : JVal) : Except PyErr (List Row) := do
  let opens := pyOrEmptyList (← jGetDefault quote "open" (.arr []))
  let highs := pyOrEmptyList (← jGetDefault quote "high" (.arr []))
  let lows := pyOrEmptyList (← jGetDefault quote "low" (.arr []))
  let closes := pyOrEmptyList (← jGetDefault quote "close" (.arr []))
  let volumes := pyOrEmptyList (← jGetDefault quote "volume" (.arr []))
  let ts ← jIter timestamps
  let os ← jIter opens
  let hs ← jIter highs
  let ls ← jIter lows
  let cs ← jIter closes
  let vs ← jIter volumes
  process_records symbol (zip6 ts os hs ls cs vs)

/-- The outcome of one HTTP request-and-decode step (`session.get` plus
`resp.json()`): either some transport/decode exception was raised
(`failure` — timeout, connection error, non-JSON body) or a decoded JSON
body was produced. -/
inductive HttpResponse where
  | failure
  | success (body : JVal)

deriving instance DecidableEq for Except

/-- Result of one fetch call: whether the HTTP request was issued, and the
returned row list or the Python error that escaped the function. -/
structure FetchOutcome where
  networkCalled : Bool
  result : Except PyErr (List Row)
deriving DecidableEq

/-- Embeds `yahoo_fetch_range_rows` (filter3, lines 119-171).  A degenerate
window returns `[]` before the request is built; a transport/decode failure
and a failed chart extraction are caught and return `[]`; the row loop runs
unguarded. -/
def yahoo_fetch_range_rows (symbol : String) (start_dt end_dt : Int)
    (resp : HttpResponse) : FetchOutcome :=
  if end_dt ≤ start_dt then ⟨false, .ok []⟩
  else
    match resp with
    | .failure => ⟨true, .ok []⟩
    | .success data =>
      match extract_chart data with
      | .error _ => ⟨true, .ok []⟩
      | .ok (timestamps, quote) => ⟨true, build_rows symbol timestamps quote⟩

/-- The planned fetch window of one task (filter3, lines 177-180): start
from the normalized watermark with a 10-year lookback, end-exclusive
`today + 1`. -/
def fetch_window (raw_last_date : RawVal) (today : Int) : Int × Int :=
  (_compute_start_date (_normalize_last_date raw_last_date) 10 today, today + 1)

/-- Embeds `fetch_worker` (filter3, lines 175-186): normalize the raw
watermark, plan the window with a 10-year lookback, and fetch unless the
window is degenerate.  The source reads `date.today()`; the embedding takes
`today` as a parameter, and the prepared HTTP outcome as another. -/
def fetch_worker (symbol : String) (raw_last_date : RawVal) (today : Int)
    (resp : HttpResponse) : String × FetchOutcome :=
  let w := fetch_window raw_last_date today
  if w.2 ≤ w.1 then (symbol, ⟨false, .ok []⟩)
  else (symbol, yahoo_fetch_range_rows symbol w.1 w.2 resp)

/-! ## Persistence Writer (`ensure_db`, `db_writer`) -/

/-- The primary key declared by `ensure_db` (filter3, lines 29-42):
`(symbol, date)`. -/
abbrev StoreKey := String × String

def rowKey (r : Row) : StoreKey := (r.symbol, r.date)

/-- The store contents, in insertion order. -/
abbrev Store := List Row

/-- The schema invariant of `ensure_db`: `(symbol, date)` is unique. -/
def UniqueKeys (st : Store) : Prop := (st.map rowKey).Nodup

/-- Duplicate-ignoring insert (`INSERT OR IGNORE`) of one row into
`prices`: a no-op when the
`(symbol, date)` key is already present, an append otherwise; a duplicate
key never errors. -/
def insert_or_ignore (st : Store) (r : Row) : Store :=
  if st.any fun x => rowKey x == rowKey r then st else st ++ [r]

/-- One `cur.executemany` call (filter3, lines 68-75): the batch's rows
inserted in order, each with duplicate-ignore semantics. -/
def executemany_insert (st : Store) (rows : List Row) : Store :=
  rows.foldl insert_or_ignore st

/-- One batch taken from the hand-off queue, together with the
environmental event "the storage layer raises during this batch's
`executemany`/`commit`" (lock contention, I/O failure).  In this simplified
model a failing batch contributes nothing to the store; this abstraction is
used only for the key-uniqueness and queue-consumption properties, which
are insensitive to it.  The source's `except` handler performs no rollback,
so the faithful effect of a failure — rows left pending in the open
transaction, committed later or rolled back at close — is modelled
separately by `db_writer_tx` below. -/
structure Batch where
  rows : List Row
  insertFails : Bool

/-- One item taken from the hand-off queue: a batch, or the `None`
sentinel that `update_data` enqueues at end of run. -/
inductive QItem where
  | sentinel
  | batch (b : Batch)

/-- Embeds the `db_writer` loop (filter3, lines 47-83) over the sequence of
items it takes from the queue, threading `(store, total_written)`.  An
empty batch is skipped (`if not rows: continue`); a failing batch is logged
and here modelled as skipped (the `except` of lines 78-79 — see
`db_writer_tx` for the transaction-accurate effect of such a failure); a
successful batch is committed and its length added to `total_written`; the
sentinel stops consumption. -/
def db_writer (st : Store) (total : Nat) : List QItem → Store × Nat
  | [] => (st, total)
  | .sentinel :: _ => (st, total)
  | .batch b :: rest =>
    if b.rows = [] then db_writer st total rest
    else if b.insertFails then db_writer st total rest
    else db_writer (executemany_insert st b.rows) (total + b.rows.length) rest

/-! ## Orchestrator (`update_data`) -/

/-- Result of `fut.result()` for one scheduled task, in completion order:
either the worker returned `(symbol, rows)`, or the task crashed and
`fut.result()` re-raises (caught and logged at filter3, lines 251-252). -/
inductive TaskResult where
  | ok (symbol : String) (rows : List Row)
  | crashed

/-- The row batches `update_data` forwards to the writer, in
task-completion order (filter3, lines 235-243): a successful task's rows
are enqueued only when non-empty; a crashed task enqueues nothing. -/
def enqueued_batches (results : List TaskResult) : List (List Row) :=
  results.filterMap fun tr =>
    match tr with
    | .ok _ rows => if rows.length > 0 then some rows else none
    | .crashed => none

/-- Pair each enqueued batch with the environment's choice of whether its
insert fails (missing choices default to a successful insert). -/
def attach_fails : List (List Row) → List Bool → List Batch
  | [], _ => []
  | rows :: rest, [] => ⟨rows, false⟩ :: attach_fails rest []
  | rows :: rest, f :: fs => ⟨rows, f⟩ :: attach_fails rest fs

/-- The full sequence of queue items the writer receives in one run, in
FIFO order: the enqueued batches in completion order, then the `None`
sentinel, which `update_data` enqueues only after the `as_completed` loop
has consumed every future (filter3, line 254). -/
def update_data_stream (results : List TaskResult) (fails : List Bool) : List QItem :=
  (attach_fails (enqueued_batches results) fails).map .batch ++ [.sentinel]

/-- The writer's effect on a plain batch list, with no shutdown involved:
what a writer that processes every batch computes. -/
def writer_fold (st : Store) (total : Nat) : List Batch → Store × Nat
  | [] => (st, total)
  | b :: rest =>
    if b.rows = [] then writer_fold st total rest
    else if b.insertFails then writer_fold st total rest
    else writer_fold (executemany_insert st b.rows) (total + b.rows.length) rest

/-! ## Theorems: window planning and the degenerate-window short-circuit -/

lemma yahoo_networkCalled_of_lt (symbol : String) (s e : Int) (resp : HttpResponse)
    (h : s < e) : (yahoo_fetch_range_rows symbol s e resp).networkCalled = true := by
  unfold yahoo_fetch_range_rows
  rw [if_neg (by omega)]
  cases resp with
  | failure => rfl
  | success data =>
    rcases hx : extract_chart data with err | tq
    · simp [hx]
    · rcases tq with ⟨t, q⟩
      simp [hx]

/-- Claim C9: for every symbol and every window whose start is at or past
the end-exclusive bound, `yahoo_fetch_range_rows` immediately returns an
empty row list and issues no network call. -/
theorem degenerate_window_short_circuits (symbol : String) (s e : Int)
    (resp : HttpResponse) (h : e ≤ s) :
    yahoo_fetch_range_rows symbol s e resp = ⟨false, .ok []⟩ := by
  unfold yahoo_fetch_range_rows
  rw [if_pos h]

theorem degenerate_window_short_circuits_witness :
    yahoo_fetch_range_rows "BTC-USD" 5 5 .failure = ⟨false, .ok []⟩ :=
  degenerate_window_short_circuits "BTC-USD" 5 5 .failure (by decide)

/-- Claim C1 counterexample: with watermark equal to today (2024-06-01),
the planner clamps the start to today, the window `[today, today + 1)` is
not degenerate, and the worker issues the network request — the claimed
"nothing to fetch" short-circuit does not happen. -/
theorem watermark_today_cex :
    _normalize_last_date (.str "2024-06-01") = some (mkDate 2024 6 1)
    ∧ fetch_window (.str "2024-06-01") (mkDate 2024 6 1)
      = (mkDate 2024 6 1, mkDate 2024 6 2)
    ∧ (fetch_worker "BTC-USD" (.str "2024-06-01") (mkDate 2024 6 1) .failure).2.networkCalled
      = true := by decide

/-- Claim C1 amended: for every symbol whose watermark equals today, the
planner returns the clamped non-degenerate window `[today, today + 1)` and
the Range Fetcher IS invoked (a network request is issued). -/
theorem watermark_today_clamped_fetch (symbol : String) (raw : RawVal) (today : Int)
    (resp : HttpResponse) (h : _normalize_last_date raw = some today) :
    fetch_window raw today = (today, today + 1)
    ∧ (fetch_worker symbol raw today resp).2.networkCalled = true := by
  have hstart : today ≤ max (today + 1) (today - 365 * 10) :=
    le_trans (by omega) (le_max_left _ _)
  have hw : fetch_window raw today = (today, today + 1) := by
    unfold fetch_window _compute_start_date
    rw [h]
    dsimp only
    rw [if_pos hstart]
  refine ⟨hw, ?_⟩
  unfold fetch_worker
  rw [hw]
  dsimp only
  rw [if_neg (by omega)]
  exact yahoo_networkCalled_of_lt symbol today (today + 1) resp (by omega)

theorem watermark_today_clamped_fetch_witness :
    fetch_window (.str "2024-06-01") (mkDate 2024 6 1) = (mkDate 2024 6 1, mkDate 2024 6 1 + 1)
    ∧ (fetch_worker "ETH-USD" (.str "2024-06-01") (mkDate 2024 6 1) .failure).2.networkCalled
      = true :=
  watermark_today_clamped_fetch "ETH-USD" (.str "2024-06-01") (mkDate 2024 6 1) .failure
    (by decide)

/-- Claim C2 counterexample: with no watermark, a 10-year lookback and
today 2024-06-01, the planned start is today minus 3650 days, which is
2014-06-04, not the claimed 2014-06-02 (three leap days fall inside the
span). -/
theorem lookback_window_cex :
    (fetch_window .nan (mkDate 2024 6 1)).1 = mkDate 2024 6 1 - 3650
    ∧ ¬ (fetch_window .nan (mkDate 2024 6 1)).1 = mkDate 2014 6 2 := by decide

/-- Claim C2 amended: with no watermark, `lookback_years = 10` and today
2024-06-01, the planned window starts at 2014-06-04 (today minus 3650
days) and ends exclusive at 2024-06-02. -/
theorem lookback_window_amended :
    fetch_window .nan (mkDate 2024 6 1) = (mkDate 2014 6 4, mkDate 2024 6 2)
    ∧ mkDate 2014 6 4 = mkDate 2024 6 1 - 3650 := by decide

/-- Claim C6 counterexample: the claimed formula
`start = max(watermark + 1, today - lookback * 365)` fails when the
watermark equals today: the planner clamps the start back to today. -/
theorem planner_formula_cex :
    ¬ _compute_start_date (some (mkDate 2024 6 1)) 10 (mkDate 2024 6 1)
      = max (mkDate 2024 6 1 + 1) (mkDate 2024 6 1 - 365 * 10) := by decide

/-- Claim C6 amended: the planned start is the claimed
`max(watermark + 1, horizon)` (or the horizon when the watermark is
absent) additionally clamped to at most `today`; the particular instance
(watermark 2024-05-30, today 2024-06-01, start 2024-05-31, non-degenerate)
holds as claimed. -/
theorem planner_start_formula (wm yb today : Int) :
    _compute_start_date (some wm) yb today = min (max (wm + 1) (today - 365 * yb)) today
    ∧ _compute_start_date none yb today = min (today - 365 * yb) today
    ∧ _compute_start_date (some (mkDate 2024 5 30)) 10 (mkDate 2024 6 1) = mkDate 2024 5 31
    ∧ mkDate 2024 5 31 < mkDate 2024 6 2 := by
  refine ⟨?_, ?_, by decide, by decide⟩
  · unfold _compute_start_date
    dsimp only
    rw [min_def, max_def]
    split_ifs <;> omega
  · unfold _compute_start_date
    dsimp only
    rw [min_def]
    split_ifs <;> omega

/-! ## Theorems: Range Fetcher error behaviour and the row filter -/

/-- Does the decoded value denote a number (the schema type of a
timestamp entry)? -/
def isNum (j : JVal) : Bool :=
  match j with
  | .num _ => true
  | _ => false

/-- Is the decoded value a number or null (the schema type of a
quote-array entry)? -/
def numOrNull (j : JVal) : Bool :=
  match j with
  | .null => true
  | .num _ => true
  | _ => false

lemma isNum_cases {j : JVal} (h : isNum j = true) : ∃ q, j = .num q := by
  cases j with
  | num q => exact ⟨q, rfl⟩
  | null => simp [isNum] at h
  | str s => simp [isNum] at h
  | bool b => simp [isNum] at h
  | arr xs => simp [isNum] at h
  | obj kvs => simp [isNum] at h

lemma numOrNull_cases {j : JVal} (h : numOrNull j = true) :
    j = .null ∨ ∃ q, j = .num q := by
  cases j with
  | null => exact Or.inl rfl
  | num q => exact Or.inr ⟨q, rfl⟩
  | str s => simp [numOrNull] at h
  | bool b => simp [numOrNull] at h
  | arr xs => simp [numOrNull] at h
  | obj kvs => simp [numOrNull] at h

/-- Claim C5: for a schema-conforming parsed record (numeric timestamp,
each quote entry a number or null), the record is dropped — no row is
emitted, rather than a row with nulls — exactly when at least one of
open/high/low/close is missing, and a record whose only missing entry is
volume is emitted with volume 0. -/
theorem row_completeness_filter (symbol : String) (t o h l c v : JVal)
    (ht : isNum t = true) (ho : numOrNull o = true) (hh : numOrNull h = true)
    (hl : numOrNull l = true) (hc : numOrNull c = true) (hv : numOrNull v = true) :
    (process_record symbol t o h l c v = .ok none
      ↔ (o.isNull || h.isNull || l.isNull || c.isNull) = true)
    ∧ ((o.isNull || h.isNull || l.isNull || c.isNull) = false → v.isNull = true →
        ∃ r : Row, process_record symbol t o h l c v = .ok (some r) ∧ r.volume = 0) := by
  obtain ⟨qt, rfl⟩ := isNum_cases ht
  rcases numOrNull_cases ho with rfl | ⟨qo, rfl⟩ <;>
    rcases numOrNull_cases hh with rfl | ⟨qh, rfl⟩ <;>
    rcases numOrNull_cases hl with rfl | ⟨ql, rfl⟩ <;>
    rcases numOrNull_cases hc with rfl | ⟨qc, rfl⟩ <;>
    rcases numOrNull_cases hv with rfl | ⟨qv, rfl⟩ <;>
    simp [process_record, pyUtcDateStr, pyFloat, JVal.isNull, Bind.bind, Except.bind,
      Pure.pure, Except.pure]

theorem row_completeness_filter_witness :
    (process_record "BTC-USD" (.num 0) (.num 1) (.num 2) (.num 1) (.num 2) .null = .ok none
      ↔ ((JVal.num 1).isNull || (JVal.num 2).isNull || (JVal.num 1).isNull
          || (JVal.num 2).isNull) = true)
    ∧ (((JVal.num 1).isNull || (JVal.num 2).isNull || (JVal.num 1).isNull
          || (JVal.num 2).isNull) = false → JVal.isNull .null = true →
        ∃ r : Row, process_record "BTC-USD" (.num 0) (.num 1) (.num 2) (.num 1) (.num 2) .null
          = .ok (some r) ∧ r.volume = 0) :=
  row_completeness_filter "BTC-USD" (.num 0) (.num 1) (.num 2) (.num 1) (.num 2) .null
    (by decide) (by decide) (by decide) (by decide) (by decide) (by decide)

/-! ## Theorems: Persistence Writer -/

/-- The stored row under a `(symbol, date)` key: the first match in
insertion order. -/
def lookupKey (st : Store) (k : StoreKey) : Option Row :=
  st.find? fun x => rowKey x == k

lemma uniq_insert (st : Store) (r : Row) (h : UniqueKeys st) :
    UniqueKeys (insert_or_ignore st r) := by
  unfold insert_or_ignore
  split
  · exact h
  · rename_i hnot
    have hr : rowKey r ∉ st.map rowKey := by
      intro hmem
      obtain ⟨x, hx, hxa⟩ := List.mem_map.mp hmem
      exact hnot (List.any_eq_true.mpr ⟨x, hx, beq_iff_eq.mpr hxa⟩)
    unfold UniqueKeys at h ⊢
    rw [List.map_append]
    rw [List.nodup_append]
    refine ⟨h, List.nodup_singleton _, ?_⟩
    intro a ha hb
    rw [List.map_singleton, List.mem_singleton] at hb
    subst hb
    exact hr ha

lemma uniq_fold (rows : List Row) : ∀ st : Store, UniqueKeys st →
    UniqueKeys (executemany_insert st rows) := by
  induction rows with
  | nil => intro st h; exact h
  | cons r rest ih =>
    intro st h
    exact ih _ (uniq_insert st r h)

lemma uniq_db_writer (items : List QItem) : ∀ (st : Store) (total : Nat),
    UniqueKeys st → UniqueKeys (db_writer st total items).1 := by
  induction items with
  | nil => intro st total h; exact h
  | cons it rest ih =>
    intro st total h
    cases it with
    | sentinel => exact h
    | batch b =>
      unfold db_writer
      by_cases h1 : b.rows = []
      · rw [if_pos h1]
        exact ih _ _ h
      · rw [if_neg h1]
        by_cases h2 : b.insertFails = true
        · rw [if_pos h2]
          exact ih _ _ h
        · rw [if_neg h2]
          exact ih _ _ (uniq_fold b.rows st h)

lemma lookup_insert (st : Store) (r row : Row) (k : StoreKey)
    (h : lookupKey st k = some row) : lookupKey (insert_or_ignore st r) k = some row := by
  unfold insert_or_ignore
  split
  · exact h
  · unfold lookupKey at h ⊢
    rw [List.find?_append, h]
    rfl

lemma lookup_fold (rows : List Row) : ∀ (st : Store) (row : Row) (k : StoreKey),
    lookupKey st k = some row → lookupKey (executemany_insert st rows) k = some row := by
  induction rows with
  | nil => intro st row k h; exact h
  | cons r rest ih =>
    intro st row k h
    exact ih _ row k (lookup_insert st r row k h)

lemma lookup_db_writer (items : List QItem) : ∀ (st : Store) (total : Nat) (row : Row)
    (k : StoreKey), lookupKey st k = some row →
    lookupKey (db_writer st total items).1 k = some row := by
  induction items with
  | nil => intro st total row k h; exact h
  | cons it rest ih =>
    intro st total row k h
    cases it with
    | sentinel => exact h
    | batch b =>
      unfold db_writer
      by_cases h1 : b.rows = []
      · rw [if_pos h1]
        exact ih _ _ row k h
      · rw [if_neg h1]
        by_cases h2 : b.insertFails = true
        · rw [if_pos h2]
          exact ih _ _ row k h
        · rw [if_neg h2]
          exact ih _ _ row k (lookup_fold b.rows st row k h)

/-- Claim C4: inserting a row whose `(symbol, date)` key is already stored
is a no-op (never an error), the `(symbol, date)`-uniqueness invariant is
preserved by every write sequence the writer processes, and a row already
stored under a key is still the row stored under that key after any
further batches — first write wins, existing rows are never
overwritten. -/
theorem duplicate_insert_invariants (st : Store) (items : List QItem) (r row : Row)
    (k : StoreKey) :
    ((st.any fun x => rowKey x == rowKey r) = true → insert_or_ignore st r = st)
    ∧ (UniqueKeys st → UniqueKeys (db_writer st 0 items).1)
    ∧ (lookupKey st k = some row → lookupKey (db_writer st 0 items).1 k = some row) := by
  refine ⟨?_, fun h => uniq_db_writer items st 0 h,
    fun h => lookup_db_writer items st 0 row k h⟩
  intro h
  unfold insert_or_ignore
  rw [if_pos h]

def wrA : Row := ⟨"BTC-USD", "2024-06-01", 1, 2, 3, 4, 5⟩
def wrB : Row := ⟨"BTC-USD", "2024-06-01", 9, 9, 9, 9, 9⟩
def wrC : Row := ⟨"ETH-USD", "2024-06-01", 7, 7, 7, 7, 7⟩

theorem duplicate_insert_invariants_witness :
    insert_or_ignore [wrA] wrB = [wrA]
    ∧ UniqueKeys (db_writer [wrA] 0 [.batch ⟨[wrB], false⟩, .sentinel]).1
    ∧ lookupKey (db_writer [wrA] 0 [.batch ⟨[wrB], false⟩, .sentinel]).1 (rowKey wrA)
      = some wrA :=
  ⟨(duplicate_insert_invariants [wrA] [.batch ⟨[wrB], false⟩, .sentinel] wrB wrA
      (rowKey wrA)).1 (by decide),
   (duplicate_insert_invariants [wrA] [.batch ⟨[wrB], false⟩, .sentinel] wrB wrA
      (rowKey wrA)).2.1 (by unfold UniqueKeys; decide),
   (duplicate_insert_invariants [wrA] [.batch ⟨[wrB], false⟩, .sentinel] wrB wrA
      (rowKey wrA)).2.2 (by decide)⟩

lemma db_writer_stream_eq (bs : List Batch) : ∀ (st : Store) (total : Nat),
    db_writer st total (bs.map .batch ++ [.sentinel]) = writer_fold st total bs := by
  induction bs with
  | nil => intro st total; rfl
  | cons b rest ih =>
    intro st total
    simp only [List.map_cons, List.cons_append]
    unfold db_writer writer_fold
    by_cases h1 : b.rows = []
    · simp only [if_pos h1]
      exact ih st total
    · by_cases h2 : b.insertFails = true
      · simp only [if_neg h1, if_pos h2]
        exact ih st total
      · simp only [if_neg h1, if_neg h2]
        exact ih _ _

/-- Claim C7: in the sequential FIFO-queue model of `update_data`, the
end-of-stream sentinel is the last item handed to the writer — it is
enqueued only after the `as_completed` loop has collected every dispatched
task's outcome (success or crash) — and the writer's run over the stream
equals a writer that processes every enqueued batch before closing: no
batch produced by a completed task is lost to shutdown. -/
theorem sentinel_last_writer_consumes_all (results : List TaskResult)
    (fails : List Bool) (st : Store) (total : Nat) :
    (update_data_stream results fails).getLast? = some .sentinel
    ∧ db_writer st total (update_data_stream results fails)
      = writer_fold st total (attach_fails (enqueued_batches results) fails) := by
  constructor
  · unfold update_data_stream
    rw [List.getLast?_concat]
  · exact db_writer_stream_eq _ st total

/-! ## Transaction-accurate failure model of the Persistence Writer

The Python sqlite3 driver opens an implicit transaction at the first
insert and the writer's `except` handler (filter3, lines 78-79) performs
no rollback.  A batch whose `executemany` or `conn.commit()` raises
therefore leaves its already-applied row inserts pending in the open
transaction; the next batch's successful `conn.commit()` commits them, and
`conn.close()` in the `finally` (line 82) rolls back whatever is still
pending at shutdown.  The model below makes the committed store and the
pending rows explicit. -/

/-- Environment's choice of how one batch's `executemany`/`commit` pair
goes: both succeed; `executemany` raises after `k` of the batch's row
inserts have been applied to the open transaction (`k = 0` covers errors
on which SQLite undoes the whole statement); or every insert is applied
and `conn.commit()` raises. -/
inductive BatchOutcome where
  | success
  | failAfter (k : Nat)
  | commitFails
deriving DecidableEq

/-- One batch taken from the hand-off queue, with its environmental
insert/commit outcome. -/
structure TxBatch where
  rows : List Row
  outcome : BatchOutcome

/-- One item taken from the hand-off queue in the transaction-accurate
model. -/
inductive TxItem where
  | sentinel
  | batch (b : TxBatch)

/-- Duplicate-ignoring insert of one row into the open transaction: the
`INSERT OR IGNORE` key check sees both the committed store and the pending
rows (same connection). -/
def tx_insert (committed pending : Store) (r : Row) : Store :=
  if (committed ++ pending).any fun x => rowKey x == rowKey r then pending
  else pending ++ [r]

/-- One `cur.executemany` inside the open transaction: the given rows are
applied in order to the pending set. -/
def tx_executemany (committed pending : Store) (rows : List Row) : Store :=
  rows.foldl (tx_insert committed) pending

/-- Embeds the `db_writer` loop (filter3, lines 47-83) with
transaction-accurate failure semantics, threading the committed store, the
pending rows of the open transaction and `total_written`.  An empty batch
is skipped before the `try`; a successful batch's commit also commits any
leftover pending rows of earlier failed batches; a failing batch leaves
its applied inserts pending (no rollback in the `except` handler); the
sentinel stops consumption and `conn.close()` rolls back whatever is still
pending; `total_written` grows only on a successful commit (line 77). -/
def db_writer_tx (committed pending : Store) (total : Nat) : List TxItem → Store × Nat
  | [] => (committed, total)
  | .sentinel :: _ => (committed, total)
  | .batch b :: rest =>
    if b.rows = [] then db_writer_tx committed pending total rest
    else
      match b.outcome with
      | .success =>
        db_writer_tx (committed ++ tx_executemany committed pending b.rows) []
          (total + b.rows.length) rest
      | .failAfter k =>
        db_writer_tx committed (tx_executemany committed pending (b.rows.take k)) total rest
      | .commitFails =>
        db_writer_tx committed (tx_executemany committed pending b.rows) total rest

/-- The pending set left behind by a batch whose insert or commit
raised. -/
def pending_after_fail (committed pending : Store) (b : TxBatch) : Store :=
  match b.outcome with
  | .failAfter k => tx_executemany committed pending (b.rows.take k)
  | _ => tx_executemany committed pending b.rows

/-- The total the writer reports for a stream: the summed sizes of exactly
the non-empty batches whose insert and commit both succeed, up to the
sentinel. -/
def committed_total : List TxItem → Nat
  | [] => 0
  | .sentinel :: _ => 0
  | .batch b :: rest =>
    (if b.rows = [] then 0
     else
       match b.outcome with
       | .success => b.rows.length
       | _ => 0) + committed_total rest

lemma db_writer_tx_cons_batch (c p : Store) (t : Nat) (b : TxBatch) (rest : List TxItem) :
    db_writer_tx c p t (.batch b :: rest)
      = if b.rows = [] then db_writer_tx c p t rest
        else
          match b.outcome with
          | .success =>
            db_writer_tx (c ++ tx_executemany c p b.rows) [] (t + b.rows.length) rest
          | .failAfter k => db_writer_tx c (tx_executemany c p (b.rows.take k)) t rest
          | .commitFails => db_writer_tx c (tx_executemany c p b.rows) t rest := rfl

lemma db_writer_tx_total (items : List TxItem) : ∀ (c p : Store) (t : Nat),
    (db_writer_tx c p t items).2 = t + committed_total items := by
  induction items with
  | nil => intro c p t; simp [db_writer_tx, committed_total]
  | cons it rest ih =>
    intro c p t
    cases it with
    | sentinel => simp [db_writer_tx, committed_total]
    | batch b =>
      rw [db_writer_tx_cons_batch]
      by_cases h1 : b.rows = []
      · rw [if_pos h1, ih]
        simp [committed_total, h1]
      · rw [if_neg h1]
        cases ho : b.outcome with
        | success =>
          rw [ih]
          simp [committed_total, h1, ho]
          omega
        | failAfter k =>
          rw [ih]
          simp [committed_total, h1, ho]
        | commitFails =>
          rw [ih]
          simp [committed_total, h1, ho]

/-- Claim C8 counterexample: a batch whose commit raises leaves its rows
pending in the open transaction (the `except` handler performs no
rollback), and the next batch's successful commit commits them — here the
failed batch's row `wrA` ends up in the store, refuting "the failed
batch's rows are absent from the store"; its size is still excluded from
the reported total. -/
theorem failed_batch_rows_leak_cex :
    (db_writer_tx [] [] 0
        [.batch ⟨[wrA], .commitFails⟩, .batch ⟨[wrC], .success⟩, .sentinel]).1 = [wrA, wrC]
    ∧ wrA ∈ (db_writer_tx [] [] 0
        [.batch ⟨[wrA], .commitFails⟩, .batch ⟨[wrC], .success⟩, .sentinel]).1
    ∧ (db_writer_tx [] [] 0
        [.batch ⟨[wrA], .commitFails⟩, .batch ⟨[wrC], .success⟩, .sentinel]).2 = 1 := by
  decide

/-- Claim C8 amended: a batch whose insert or commit raises is logged and
skipped — the writer continues with the remaining items and neither the
committed store nor the reported total changes at the failing step; over a
whole run the reported total counts exactly the successful non-empty
batches; a successful batch still commits (its rows together with any
leftover pending rows); and the failed batch's rows are not committed by
its own step — they remain pending in the open transaction, where a later
successful commit may commit them and the close at shutdown discards
them. -/
theorem failed_batch_logged_and_skipped (c p : Store) (t : Nat) (b bs : TxBatch)
    (rest items : List TxItem) (hne : b.rows ≠ []) (hfail : b.outcome ≠ .success)
    (hs : bs.outcome = .success) (hsne : bs.rows ≠ []) :
    db_writer_tx c p t (.batch b :: rest)
      = db_writer_tx c (pending_after_fail c p b) t rest
    ∧ db_writer_tx c p t (.batch bs :: rest)
      = db_writer_tx (c ++ tx_executemany c p bs.rows) [] (t + bs.rows.length) rest
    ∧ (db_writer_tx c p t items).2 = t + committed_total items
    ∧ db_writer_tx c p t (.sentinel :: rest) = (c, t) := by
  refine ⟨?_, ?_, db_writer_tx_total items c p t, rfl⟩
  · rw [db_writer_tx_cons_batch, if_neg hne]
    unfold pending_after_fail
    cases ho : b.outcome with
    | success => exact absurd ho hfail
    | failAfter k => rfl
    | commitFails => rfl
  · rw [db_writer_tx_cons_batch, if_neg hsne, hs]

theorem failed_batch_logged_and_skipped_witness :
    db_writer_tx [] [] 0 [.batch ⟨[wrA], .commitFails⟩, .sentinel]
      = db_writer_tx [] (pending_after_fail [] [] ⟨[wrA], .commitFails⟩) 0 [.sentinel]
    ∧ db_writer_tx [] [] 0 [.batch ⟨[wrC], .success⟩, .sentinel]
      = db_writer_tx ([] ++ tx_executemany [] [] [wrC]) [] (0 + [wrC].length) [.sentinel]
    ∧ (db_writer_tx [] [] 0 [.sentinel]).2 = 0 + committed_total [.sentinel]
    ∧ db_writer_tx [] [] 0 [.sentinel] = ([], 0) :=
  failed_batch_logged_and_skipped [] [] 0 ⟨[wrA], .commitFails⟩ ⟨[wrC], .success⟩
    [.sentinel] [.sentinel] (by decide) (by decide) rfl (by decide)

/-! ## Theorems: watermark normalization totality -/

lemma isoParse_valid {s : String} {y m d : Int} (h : isoParse s = some (y, m, d)) :
    validYmd y m d = true := by
  unfold isoParse at h
  split at h
  · split at h
    · split at h
      · rename_i hcond
        simp only [Option.some.injEq, Prod.mk.injEq] at h
        obtain ⟨rfl, rfl, rfl⟩ := h
        exact hcond.2
      · exact Option.noConfusion h
    · exact Option.noConfusion h
  · exact Option.noConfusion h

/-- Claim C10: watermark normalization is total — it never raises and
yields either a valid calendar date or `none` — and every unparseable raw
value (missing/NaN, empty or blank, any case variant of "none", a
non-date string, an out-of-range calendar date) normalizes to `none`, so
the task plans exactly the full-lookback window a never-ingested symbol
gets. -/
theorem normalize_last_date_total (raw : RawVal) (today : Int) (symbol : String)
    (resp : HttpResponse) :
    (_normalize_last_date .nan = none
      ∧ _normalize_last_date (.str "") = none
      ∧ _normalize_last_date (.str "   ") = none
      ∧ _normalize_last_date (.str "none") = none
      ∧ _normalize_last_date (.str "NoNe") = none
      ∧ _normalize_last_date (.str " None ") = none
      ∧ _normalize_last_date (.str "not-a-date") = none
      ∧ _normalize_last_date (.str "2024-13-01") = none)
    ∧ (∀ s d, _normalize_last_date (.str s) = some d →
        ∃ y m dd, validYmd y m dd = true ∧ d = daysFromCivil y m dd)
    ∧ (_normalize_last_date raw = none →
        fetch_worker symbol raw today resp = fetch_worker symbol .nan today resp) := by
  refine ⟨by decide, ?_, ?_⟩
  · intro s d h
    simp only [_normalize_last_date] at h
    split_ifs at h
    unfold pdToDatetimeDate at h
    split at h
    · rename_i y m dd heq
      simp only [Option.some.injEq] at h
      exact ⟨y, m, dd, isoParse_valid heq, h.symm⟩
    · exact Option.noConfusion h
  · intro h
    unfold fetch_worker fetch_window
    rw [h]
    rfl

theorem normalize_last_date_total_witness :
    fetch_worker "BTC-USD" (.str "not-a-date") (mkDate 2024 6 1) .failure
      = fetch_worker "BTC-USD" .nan (mkDate 2024 6 1) .failure :=
  (normalize_last_date_total (.str "not-a-date") (mkDate 2024 6 1) "BTC-USD"
    .failure).2.2 (by decide)

end CryptoScope
